import Mathlib

/-!
Verification of the deployment-system control plane.

This file gives a shallow embedding of the parts of the TypeScript backend
that the specification talks about: the credential layer (magic links, API
keys, scope guard), the deployment worker and its status writes, the Docker
driver wrapper (service specs, networks, volumes and their labels), the
environment delete cascade, and the startup recovery supervisor.  Pure
fragments of the source become Lean functions; the stateful redemption path
becomes an explicit step machine so that interleavings of two redeemers can
be examined.  All definitions are executable and all predicates decidable.
-/

/-- Scope enum of the ApiKeyScope Prisma type. -/
inductive ApiKeyScope where
  | environmentsRead
  | environmentsWrite
  | deploymentsRead
  | deploymentsWrite
  | logsRead
  | admin
  deriving DecidableEq, Repr

/-- DeploymentStatus enum of the Prisma schema. -/
inductive DeploymentStatus where
  | pending
  | pullingImage
  | creatingVolumes
  | startingContainers
  | running
  | failed
  | stopped
  deriving DecidableEq, Repr

/-- EnvironmentStatus enum of the Prisma schema. -/
inductive EnvironmentStatus where
  | creating
  | active
  | deleting
  | deleted
  | error
  deriving DecidableEq, Repr

/-- Association-list lookup, the reading of a JS object field. -/
def lookupKey (m : List (String × String)) (k : String) : Option String :=
  (m.find? (fun p => p.1 == k)).map (fun p => p.2)

/-- Assignment of one JS object field: overwrite in place when the key is
present, append otherwise. -/
def setKey (m : List (String × String)) (k v : String) : List (String × String) :=
  if m.any (fun p => p.1 == k) then
    m.map (fun p => if p.1 == k then (k, v) else p)
  else
    m ++ [(k, v)]

/-- JS Object.assign of a source object into a target object, also the
semantics of an object-literal spread. -/
def objectAssign (target src : List (String × String)) : List (String × String) :=
  src.foldl (fun t p => setKey t p.1 p.2) target

/-- Request principal attached by ApiKeyGuard, as seen by ScopesGuard. -/
structure ApiKeyInfo where
  scopes : List ApiKeyScope
  deriving DecidableEq, Repr

/-- ScopesGuard.canActivate: no required scopes lets the call through; a
missing principal is forbidden; ADMIN passes unconditionally; otherwise all
required scopes must be held. -/
def canActivate (requiredScopes : List ApiKeyScope) (apiKey : Option ApiKeyInfo) :
    Except String Bool :=
  if requiredScopes.isEmpty then .ok true
  else
    match apiKey with
    | none => .error "API key not found in request"
    | some key =>
      if ApiKeyScope.admin ∈ key.scopes then .ok true
      else if requiredScopes.all (fun s => decide (s ∈ key.scopes)) then .ok true
      else .error "Insufficient permissions"

/-- ApiKey row of the store, restricted to the columns revokeApiKey reads
and writes. -/
structure ApiKeyRow where
  id : Nat
  userId : String
  keyId : String
  scopes : List ApiKeyScope
  revokedAt : Option Nat
  deriving DecidableEq, Repr

/-- AuthService.revokeApiKey: find the caller-owned row by keyId; not found
raises; an already-revoked row is left untouched; otherwise revokedAt is
stamped.  The row list is returned as the resulting table state. -/
def revokeApiKey (keys : List ApiKeyRow) (userId keyId : String) (now : Nat) :
    Except String (List ApiKeyRow) :=
  match keys.find? (fun k => k.userId == userId && k.keyId == keyId) with
  | none => .error "API key not found"
  | some k =>
    if k.revokedAt.isSome then .ok keys
    else .ok (keys.map (fun x => if x.id == k.id then { x with revokedAt := some now } else x))

/-- MagicLink row of the store, restricted to the columns verifyMagicLink
reads and writes. -/
structure MagicLinkRow where
  token : String
  userId : String
  usedAt : Option Nat
  expiresAt : Nat
  deriving DecidableEq, Repr

/-- Program counter of one redeemer running AuthService.verifyMagicLink.
The method performs three separate store operations with no transaction:
a findUnique with the used and expiry checks, an update stamping usedAt
that is not conditioned on usedAt being null, and an ApiKey insert. -/
inductive RedeemPhase where
  | start
  | checked
  | marked
  | done
  | failed
  deriving DecidableEq, Repr

/-- Shared state of two concurrent redemptions of the same token: the
single MagicLink row the token resolves to, the ApiKey rows created so far
(tagged by the creating redeemer), and each redeemer's phase. -/
structure RedeemRace where
  link : MagicLinkRow
  apiKeys : List Nat
  procA : RedeemPhase
  procB : RedeemPhase
  deriving DecidableEq, Repr

/-- One atomic store operation of the redeemer selected by `who` (false is
A, true is B), following verifyMagicLink: the lookup-and-check step fails
on a used or expired row, the mark step stamps usedAt unconditionally, the
create step inserts one ApiKey row. -/
def raceStep (now : Nat) (st : RedeemRace) (who : Bool) : RedeemRace :=
  let ph := if who then st.procB else st.procA
  let setPh := fun (s : RedeemRace) (p : RedeemPhase) =>
    if who then { s with procB := p } else { s with procA := p }
  match ph with
  | .start =>
    if st.link.usedAt.isSome then setPh st .failed
    else if st.link.expiresAt < now then setPh st .failed
    else setPh st .checked
  | .checked =>
    setPh { st with link := { st.link with usedAt := some now } } .marked
  | .marked =>
    setPh { st with apiKeys := st.apiKeys ++ [if who then 1 else 0] } .done
  | .done => st
  | .failed => st

/-- Run an interleaving of the two redeemers given by a schedule. -/
def raceRun (now : Nat) (init : RedeemRace) (sched : List Bool) : RedeemRace :=
  sched.foldl (raceStep now) init

/-- Service name composed by the deployment worker:
job_<envName>_<jobId>. -/
def workerServiceName (envName jobId : String) : String :=
  "job_" ++ envName ++ "_" ++ jobId

/-- StartupService.buildServiceName: the name the recovery supervisor
expects, composed as <envName>_<serviceRowName>_<deploymentId> where
serviceRowName is the name column of the Service row. -/
def buildServiceName (envName serviceRowName deploymentId : String) : String :=
  envName ++ "_" ++ serviceRowName ++ "_" ++ deploymentId

/-- EnvironmentsService.createEnvironment name validation: the regex admits
one or more ASCII alphanumerics, hyphens and underscores, with no bound on
the length. -/
def isValidEnvName (name : String) : Bool :=
  name.length > 0 && name.data.all (fun c => c.isAlphanum || c == '_' || c == '-')

/-- Port mapping of a deployment row. -/
structure PortMapping where
  container : Nat
  host : Option Nat
  protocol : Option String
  deriving DecidableEq, Repr

/-- Volume reference of a deployment row. -/
structure VolumeRef where
  name : String
  path : String
  readOnly : Option Bool
  deriving DecidableEq, Repr

/-- Healthcheck options of a ServiceConfig. -/
structure HealthCheckCfg where
  test : List String
  interval : Option Nat
  timeout : Option Nat
  retries : Option Nat
  deriving DecidableEq, Repr

/-- ContainerService.ServiceConfig. -/
structure ServiceConfig where
  name : String
  image : String
  tag : Option String
  replicas : Option Nat
  env : Option (List (String × String))
  ports : Option (List PortMapping)
  volumes : Option (List VolumeRef)
  networks : Option (List String)
  labels : Option (List (String × String))
  cpuLimit : Option Nat
  memoryLimit : Option Nat
  healthCheck : Option HealthCheckCfg
  deriving DecidableEq, Repr

/-- Port entry of the submitted EndpointSpec. -/
structure EndpointPortSpec where
  targetPort : Nat
  publishedPort : Option Nat
  protocol : String
  publishMode : Option String
  deriving DecidableEq, Repr

/-- Mount entry of the submitted TaskTemplate.ContainerSpec. -/
structure MountSpec where
  type : String
  source : String
  target : String
  readOnly : Bool
  deriving DecidableEq, Repr

/-- HealthCheck of the submitted ContainerSpec, defaults applied. -/
structure HealthSpec where
  test : List String
  interval : Nat
  timeout : Nat
  retries : Nat
  deriving DecidableEq, Repr

/-- Privileges block of the submitted ContainerSpec; the source nulls the
CredentialSpec and SELinuxContext members. -/
structure PrivilegesSpec where
  credentialSpec : Option String
  seLinuxContext : Option String
  deriving DecidableEq, Repr

/-- ContainerSpec portion of the submitted Swarm service spec.  The
capabilityDrop and noNewPrivileges members are the engine-level hardening
fields of the Docker API; a value of none means the submitted JSON does not
carry the field. -/
structure ContainerSpecPart where
  image : String
  env : Option (List String)
  mounts : Option (List MountSpec)
  healthCheck : Option HealthSpec
  privileges : PrivilegesSpec
  capabilityDrop : Option (List String)
  noNewPrivileges : Option Bool
  deriving DecidableEq, Repr

/-- Resource limits of the submitted TaskTemplate. -/
structure ResourceLimitsSpec where
  nanoCPUs : Option Nat
  memoryBytes : Option Nat
  deriving DecidableEq, Repr

/-- RestartPolicy of the submitted TaskTemplate; the delay is nanoseconds. -/
structure RestartPolicySpec where
  condition : String
  delay : Nat
  maxAttempts : Nat
  deriving DecidableEq, Repr

/-- TaskTemplate of the submitted Swarm service spec. -/
structure TaskTemplateSpec where
  containerSpec : ContainerSpecPart
  resources : Option ResourceLimitsSpec
  restartPolicy : RestartPolicySpec
  networks : Option (List String)
  deriving DecidableEq, Repr

/-- The Swarm service spec submitted to the engine. -/
structure SwarmServiceSpec where
  name : String
  taskTemplate : TaskTemplateSpec
  replicas : Nat
  ports : Option (List EndpointPortSpec)
  labels : List (String × String)
  deriving DecidableEq, Repr

/-- Label key the driver stamps on every resource it creates. -/
def managedLabelKey : String := "com.deployment-platform.managed"

/-- JS truthiness of an optional number: absent and zero are falsy. -/
def optTruthy (o : Option Nat) : Bool :=
  match o with
  | some n => n != 0
  | none => false

/-- ContainerService.createService: the construction of the serviceSpec
value submitted to the engine, field for field.  The Privileges block only
nulls CredentialSpec and SELinuxContext; no CapabilityDrop and no
no-new-privileges field is ever set. -/
def createServiceSpec (config : ServiceConfig) : SwarmServiceSpec :=
  let fullImage := config.image ++ ":" ++ config.tag.getD "latest"
  let env := (config.env.getD []).map (fun p => p.1 ++ "=" ++ p.2)
  let ports := (config.ports.getD []).map
    (fun p => EndpointPortSpec.mk p.container p.host (p.protocol.getD "tcp")
      (if p.host.isSome then some "host" else none))
  let mounts := (config.volumes.getD []).map
    (fun v => MountSpec.mk "volume" v.name v.path (v.readOnly.getD false))
  let healthCheck := config.healthCheck.map
    (fun h => HealthSpec.mk h.test (h.interval.getD 30000000000)
      (h.timeout.getD 10000000000) (h.retries.getD 3))
  let resources :=
    if optTruthy config.cpuLimit || optTruthy config.memoryLimit then
      some (ResourceLimitsSpec.mk
        (if optTruthy config.cpuLimit then some (config.cpuLimit.getD 0 * 1000000000) else none)
        (if optTruthy config.memoryLimit then config.memoryLimit else none))
    else none
  let networks := config.networks.getD []
  { name := config.name
    taskTemplate :=
      { containerSpec :=
          { image := fullImage
            env := if env.length > 0 then some env else none
            mounts := if mounts.length > 0 then some mounts else none
            healthCheck := healthCheck
            privileges := ⟨none, none⟩
            capabilityDrop := none
            noNewPrivileges := none }
        resources := resources
        restartPolicy := ⟨"on-failure", 5000000000, 3⟩
        networks := if networks.length > 0 then some networks else none }
    replicas := if optTruthy config.replicas then config.replicas.getD 1 else 1
    ports := if ports.length > 0 then some ports else none
    labels := objectAssign [(managedLabelKey, "true")] (config.labels.getD []) }

/-- DeploymentsService.getProxyEnvironmentVariables: VIRTUAL_HOST and
LETSENCRYPT_HOST set to the domain, LETSENCRYPT_EMAIL from the process env
with a default, and VIRTUAL_PORT from the first declared container port
when ports are present.  The serviceName parameter is unused, as in the
source. -/
def getProxyEnvironmentVariables (domain : String) (_serviceName : String)
    (ports : Option (List PortMapping)) (letsencryptEmail : Option String) :
    List (String × String) :=
  let base := [("VIRTUAL_HOST", domain), ("LETSENCRYPT_HOST", domain),
    ("LETSENCRYPT_EMAIL", letsencryptEmail.getD "your-email@example.com")]
  match ports with
  | some (p :: _) => base ++ [("VIRTUAL_PORT", toString p.container)]
  | _ => base

/-- Env value the registry worker passes to createService.  The source does
Object.assign(envVars || fresh, proxyEnvVars) and then passes envVars: when
the row has env vars the object is mutated in place, but when envVars is
null the assignment lands in a discarded fresh object and envVars stays
null. -/
def registryServiceEnv (isPublic : Bool) (publicDomain : Option String)
    (serviceName : String) (envVars : Option (List (String × String)))
    (ports : Option (List PortMapping)) (letsencryptEmail : Option String) :
    Option (List (String × String)) :=
  match publicDomain with
  | some d =>
    if isPublic && d != "" then
      match envVars with
      | some m =>
        some (objectAssign m (getProxyEnvironmentVariables d serviceName ports letsencryptEmail))
      | none => none
    else envVars
  | none => envVars

/-- Env value the Git worker passes to createService.  The source binds
envVars to (deployment.envVars || fresh) first and then assigns the proxy
vars into that same object. -/
def gitServiceEnv (isPublic : Bool) (publicDomain : Option String)
    (serviceName : String) (envVars : Option (List (String × String)))
    (ports : Option (List PortMapping)) (letsencryptEmail : Option String) :
    List (String × String) :=
  let m := envVars.getD []
  match publicDomain with
  | some d =>
    if isPublic && d != "" then
      objectAssign m (getProxyEnvironmentVariables d serviceName ports letsencryptEmail)
    else m
  | none => m

/-- Lifecycle rank of a deployment status. -/
def statusRank : DeploymentStatus → Nat
  | .pending => 0
  | .pullingImage => 1
  | .creatingVolumes => 2
  | .startingContainers => 3
  | .running => 4
  | .failed => 5
  | .stopped => 6

/-- The second phase of both workers: STARTING_CONTAINERS is written, then
the service creation either fails or the row reaches RUNNING. -/
def startPhaseTrace (serviceOk : Bool) : List DeploymentStatus :=
  .startingContainers :: (if serviceOk then [.running] else [.failed])

/-- Sequence of status values written to the row by the registry worker
processDeployment, as a function of whether the row is found, the image
pull succeeds, volumes are declared and their creation succeeds, and the
service creation succeeds.  The CREATING_VOLUMES write is unconditional. -/
def registryStatusTrace (found pullOk hasVolumes volumesOk serviceOk : Bool) :
    List DeploymentStatus :=
  .pending ::
    (if found then
      .pullingImage ::
        (if pullOk then
          .creatingVolumes ::
            (if hasVolumes && !volumesOk then [.failed]
             else startPhaseTrace serviceOk)
         else [.failed])
     else [.failed])

/-- Sequence of status values written by the Git worker
processDeploymentFromGit.  The CREATING_VOLUMES write sits inside the
volumes conditional, so a deployment with no volumes column never receives
that status. -/
def gitStatusTrace (found buildOk hasVolumes volumesOk serviceOk : Bool) :
    List DeploymentStatus :=
  .pending ::
    (if found then
      .pullingImage ::
        (if buildOk then
          (if hasVolumes then
            .creatingVolumes ::
              (if volumesOk then startPhaseTrace serviceOk else [.failed])
           else startPhaseTrace serviceOk)
         else [.failed])
     else [.failed])

/-- Whether consecutive statuses of a trace strictly advance in lifecycle
rank: monotone, never revisited. -/
def strictlyAdvancingB : List DeploymentStatus → Bool
  | [] => true
  | [_] => true
  | a :: b :: t => decide (statusRank a < statusRank b) && strictlyAdvancingB (b :: t)

/-- Whether every intermediate state of the fixed order appears in the
trace before any later state of the order does. -/
def writesInOrderB (t : List DeploymentStatus) : Bool :=
  (!t.contains .pullingImage || t.contains .pending)
  && (!t.contains .creatingVolumes || t.contains .pullingImage)
  && (!t.contains .startingContainers || t.contains .creatingVolumes)
  && (!t.contains .running || t.contains .startingContainers)

/-- A resource of the live Docker engine: name plus whether it carries the
managed=true label. -/
structure DockerResource where
  name : String
  managed : Bool
  deriving DecidableEq, Repr

/-- Driver-visible engine state: live services, volumes, networks. -/
structure DriverState where
  services : List DockerResource
  volumes : List DockerResource
  networks : List DockerResource
  deriving DecidableEq, Repr

/-- ContainerService.removeService: removal by name or id, with a 404
treated as success; the label of the resource is never consulted. -/
def removeService (st : DriverState) (nameOrId : String) : DriverState :=
  { st with services := st.services.filter (fun r => r.name != nameOrId) }

/-- VolumeService.deleteVolume: removal by name, 404 and in-use tolerated;
the label is never consulted. -/
def deleteVolume (st : DriverState) (nameOrId : String) : DriverState :=
  { st with volumes := st.volumes.filter (fun r => r.name != nameOrId) }

/-- NetworkService.deleteNetwork: removal by name or id, 404 tolerated; the
label is never consulted. -/
def deleteNetwork (st : DriverState) (nameOrId : String) : DriverState :=
  { st with networks := st.networks.filter (fun r => r.name != nameOrId) }

/-- Labels of NetworkService.createOverlayNetwork: managed=true spread with
the caller's labels. -/
def createOverlayNetworkLabels (labels : List (String × String)) : List (String × String) :=
  objectAssign [(managedLabelKey, "true")] labels

/-- Labels of VolumeService.createVolume: managed=true spread with the
caller's labels. -/
def createVolumeLabels (labels : List (String × String)) : List (String × String) :=
  objectAssign [(managedLabelKey, "true")] labels

/-- Environment row of the store, restricted to the columns
deleteEnvironment reads and writes. -/
structure EnvironmentRow where
  id : String
  status : EnvironmentStatus
  errorMessage : Option String
  overlayNetworkId : String
  deriving DecidableEq, Repr

/-- EnvironmentsService.deleteEnvironment: conflict when the row is already
DELETING or DELETED; otherwise the row is flipped to DELETING, the child
services are removed (failures logged, not raised), the managed volumes of
the environment are listed and removed, the overlay network is deleted, and
the row ends in DELETED; a raising step (here the volume listing) sends the
row to ERROR with the message recorded and re-raises. -/
def deleteEnvironment (env : EnvironmentRow) (childServiceNames : List (Option String))
    (listVolumesRes : Except String (List String)) (st : DriverState) :
    Except String String × EnvironmentRow × DriverState :=
  if env.status = .deleting then
    (.error "Environment is already being deleted", env, st)
  else if env.status = .deleted then
    (.error "Environment is already deleted", env, st)
  else
    let env1 := { env with status := .deleting }
    let st1 := childServiceNames.foldl
      (fun s n => match n with | some nm => removeService s nm | none => s) st
    match listVolumesRes with
    | .error e =>
      (.error e,
        { env1 with status := .error, errorMessage := some ("Deletion failed: " ++ e) },
        st1)
    | .ok vols =>
      let st2 := vols.foldl deleteVolume st1
      let st3 := if env.overlayNetworkId != "" then deleteNetwork st2 env.overlayNetworkId else st2
      (.ok "Environment deleted successfully", { env1 with status := .deleted }, st3)

theorem find?_replaceKey_ne (t : List (String × String)) (a b k : String)
    (h : (a == k) = false) :
    (t.map (fun p => if p.1 == a then (a, b) else p)).find? (fun p => p.1 == k)
      = t.find? (fun p => p.1 == k) := by
  induction t with
  | nil => rfl
  | cons p t ih =>
    by_cases hpa : (p.1 == a) = true
    · have hp1 : p.1 = a := eq_of_beq hpa
      have hpk : (p.1 == k) = false := by rw [hp1]; exact h
      simp only [List.map_cons, hpa, if_true]
      rw [List.find?_cons_of_neg _ (by simp [h]), List.find?_cons_of_neg _ (by simp [hpk])]
      exact ih
    · simp only [List.map_cons, hpa, if_false]
      by_cases hpk : (p.1 == k) = true
      · rw [List.find?_cons_of_pos _ (by simpa using hpk),
          List.find?_cons_of_pos _ (by simpa using hpk)]
        simp
      · rw [List.find?_cons_of_neg _ (by simpa using hpk),
          List.find?_cons_of_neg _ (by simpa using hpk)]
        exact ih

theorem lookupKey_setKey_ne (t : List (String × String)) (a b k : String)
    (h : (a == k) = false) :
    lookupKey (setKey t a b) k = lookupKey t k := by
  unfold setKey lookupKey
  split
  · rw [find?_replaceKey_ne t a b k h]
  · rw [List.find?_append]
    have hsing : (([(a, b)] : List (String × String)).find? (fun p => p.1 == k)) = none := by
      simp [List.find?, h]
    rw [hsing]
    cases t.find? (fun p => p.1 == k) <;> rfl

theorem lookupKey_objectAssign (target src : List (String × String)) (k : String)
    (h : src.all (fun p => p.1 != k) = true) :
    lookupKey (objectAssign target src) k = lookupKey target k := by
  induction src generalizing target with
  | nil => rfl
  | cons p src ih =>
    simp only [List.all_cons, Bool.and_eq_true] at h
    have h1 : (p.1 == k) = false := by
      have hb := h.1
      simpa [bne] using hb
    show lookupKey (objectAssign (setKey target p.1 p.2) src) k = lookupKey target k
    rw [ih _ h.2]
    exact lookupKey_setKey_ne target p.1 p.2 k h1

/-- Claim C1.  The redemption code performs its lookup, the usedAt stamp
and the ApiKey insert as three separate unconditional store operations (no
transaction, no condition on usedAt being null).  Run sequentially, the
second redemption of a valid token fails and exactly one ApiKey row exists;
but under the interleaving A-read B-read A-mark A-create B-mark B-create of
the same token, both redemptions reach done and two ApiKey rows are
created, so two concurrent redemptions do not leave exactly one winner. -/
theorem magic_link_race_two_winners :
    (raceRun 5 ⟨⟨"tok_1", "user1", none, 100⟩, [], .start, .start⟩
        [false, false, false, true, true, true]).apiKeys = [0]
    ∧ (raceRun 5 ⟨⟨"tok_1", "user1", none, 100⟩, [], .start, .start⟩
        [false, false, false, true, true, true]).procB = .failed
    ∧ (raceRun 5 ⟨⟨"tok_1", "user1", none, 100⟩, [], .start, .start⟩
        [false, true, false, false, true, true]).apiKeys = [0, 1]
    ∧ (raceRun 5 ⟨⟨"tok_1", "user1", none, 100⟩, [], .start, .start⟩
        [false, true, false, false, true, true]).procA = .done
    ∧ (raceRun 5 ⟨⟨"tok_1", "user1", none, 100⟩, [], .start, .start⟩
        [false, true, false, false, true, true]).procB = .done := by
  decide

/-- Claim C2.  The recovery supervisor checks for a service under
buildServiceName, which prepends the environment name and appends the
deployment id to the Service row name; the worker created the service (and
filled the Service row name) as workerServiceName.  The two names can never
agree, so recovery never looks under the name the worker used. -/
theorem recovery_checks_wrong_name (envName jobId deploymentId : String) :
    buildServiceName envName (workerServiceName envName jobId) deploymentId
      ≠ workerServiceName envName jobId := by
  intro h
  have hlen := congrArg String.length h
  simp only [buildServiceName, workerServiceName, String.length_append,
    show ("_" : String).length = 1 from rfl,
    show ("job_" : String).length = 4 from rfl] at hlen
  omega

/-- Claim C3.  The service spec submitted by createService carries the
on-failure restart policy with 3 attempts and a 5 s delay, but it carries
no CapabilityDrop and no no-new-privileges field, for the concrete registry
deployment config shown; so the hardened security defaults the claim
names are absent from every submitted spec. -/
theorem create_service_spec_missing_hardening :
    (createServiceSpec ⟨"job_demo_abcdefghij123456", "nginx", some "alpine", some 1,
        none, none, none, some ["overlay_env_demo_1700000000000"], none, none, none,
        none⟩).taskTemplate.restartPolicy = ⟨"on-failure", 5000000000, 3⟩
    ∧ (createServiceSpec ⟨"job_demo_abcdefghij123456", "nginx", some "alpine", some 1,
        none, none, none, some ["overlay_env_demo_1700000000000"], none, none, none,
        none⟩).taskTemplate.containerSpec.capabilityDrop = none
    ∧ (createServiceSpec ⟨"job_demo_abcdefghij123456", "nginx", some "alpine", some 1,
        none, none, none, some ["overlay_env_demo_1700000000000"], none, none, none,
        none⟩).taskTemplate.containerSpec.noNewPrivileges = none
    ∧ ¬((createServiceSpec ⟨"job_demo_abcdefghij123456", "nginx", some "alpine", some 1,
        none, none, none, some ["overlay_env_demo_1700000000000"], none, none, none,
        none⟩).taskTemplate.containerSpec.capabilityDrop = some ["ALL"]
      ∧ (createServiceSpec ⟨"job_demo_abcdefghij123456", "nginx", some "alpine", some 1,
        none, none, none, some ["overlay_env_demo_1700000000000"], none, none, none,
        none⟩).taskTemplate.containerSpec.noNewPrivileges = some true) := by
  decide

/-- Claim C4.  On the registry path, a public environment with a stored
domain and a deployment that declares no user env vars yields env = none
passed to createService: the proxy vars are lost, because the source
assigns them into a discarded fresh object.  The Git path at the same
inputs does carry VIRTUAL_HOST and VIRTUAL_PORT, and the registry path does
merge correctly whenever the deployment has at least an empty env-vars
object. -/
theorem registry_public_env_drops_proxy_vars :
    registryServiceEnv true (some "app.example.com") "job_demo_abcdefghij123456" none
        (some [⟨80, some 8080, none⟩]) (some "ops@example.com") = none
    ∧ lookupKey (gitServiceEnv true (some "app.example.com") "job_demo_abcdefghij123456" none
        (some [⟨80, some 8080, none⟩]) (some "ops@example.com")) "VIRTUAL_HOST"
        = some "app.example.com"
    ∧ lookupKey (gitServiceEnv true (some "app.example.com") "job_demo_abcdefghij123456" none
        (some [⟨80, some 8080, none⟩]) (some "ops@example.com")) "VIRTUAL_PORT"
        = some "80"
    ∧ ∀ m, registryServiceEnv true (some "app.example.com") "job_demo_abcdefghij123456" (some m)
        (some [⟨80, some 8080, none⟩]) (some "ops@example.com")
        = some (objectAssign m (getProxyEnvironmentVariables "app.example.com"
            "job_demo_abcdefghij123456" (some [⟨80, some 8080, none⟩])
            (some "ops@example.com"))) := by
  refine ⟨by decide, by decide, by decide, fun m => rfl⟩

/-- Claim C5 counterexample.  A 43-character environment name passes the
createEnvironment validation (which bounds only the alphabet, not the
length), yet the worker service name built from it is 64 characters long,
above the 63-character bound the claim asserts by construction. -/
theorem env_name_length_unbounded_cex :
    isValidEnvName "aaaaaaaaaaaaaaaaaaaaaaaaaaaaaaaaaaaaaaaaaaa" = true
    ∧ (workerServiceName "aaaaaaaaaaaaaaaaaaaaaaaaaaaaaaaaaaaaaaaaaaa"
        "abcdefghij123456").length = 64 := by
  decide

/-- Claim C5 as amended.  The worker service name is the deterministic
function workerServiceName of the environment name and the 16-character job
id; its length is exactly 21 plus the environment-name length, so it
respects the 63-character bound precisely when the environment name has at
most 42 characters, a bound the name validation does not enforce. -/
theorem worker_service_name_length (envName jobId : String) (h : jobId.length = 16) :
    (workerServiceName envName jobId).length = 21 + envName.length
    ∧ ((workerServiceName envName jobId).length ≤ 63 ↔ envName.length ≤ 42) := by
  have hl : (workerServiceName envName jobId).length = 21 + envName.length := by
    simp only [workerServiceName, String.length_append,
      show ("_" : String).length = 1 from rfl,
      show ("job_" : String).length = 4 from rfl, h]
    omega
  exact ⟨hl, by rw [hl]; omega⟩

theorem worker_service_name_length_witness :
    ("abcdefghij123456" : String).length = 16
    ∧ (workerServiceName "demo" "abcdefghij123456").length = 21 + ("demo" : String).length
    ∧ ((workerServiceName "demo" "abcdefghij123456").length ≤ 63
        ↔ ("demo" : String).length ≤ 42) :=
  ⟨rfl, (worker_service_name_length "demo" "abcdefghij123456" rfl).1,
    (worker_service_name_length "demo" "abcdefghij123456" rfl).2⟩

/-- Claim C6 counterexample.  The Git worker on a deployment with no
volumes column writes PENDING, PULLING_IMAGE, STARTING_CONTAINERS, RUNNING:
STARTING_CONTAINERS is written although CREATING_VOLUMES never was, so an
intermediate state of the order is skipped before a later one. -/
theorem git_trace_skips_creating_volumes :
    gitStatusTrace true true false true true
      = [.pending, .pullingImage, .startingContainers, .running]
    ∧ writesInOrderB (gitStatusTrace true true false true true) = false := by
  decide

/-- Claim C6 as amended.  For every outcome of the fallible steps, both
workers write strictly rank-advancing statuses (monotone, nothing
revisited); the registry worker writes every intermediate state of the
order before any later one, and the Git worker does so whenever the
deployment declares volumes, but skips CREATING_VOLUMES otherwise. -/
theorem deployment_status_trace_monotone :
    ∀ (found pullOk hasVolumes volumesOk serviceOk : Bool),
      strictlyAdvancingB (registryStatusTrace found pullOk hasVolumes volumesOk serviceOk) = true
      ∧ writesInOrderB (registryStatusTrace found pullOk hasVolumes volumesOk serviceOk) = true
      ∧ strictlyAdvancingB (gitStatusTrace found pullOk hasVolumes volumesOk serviceOk) = true
      ∧ (hasVolumes = true →
          writesInOrderB (gitStatusTrace found pullOk hasVolumes volumesOk serviceOk) = true) := by
  decide

theorem deployment_status_trace_monotone_witness :
    writesInOrderB (gitStatusTrace true true true true true) = true :=
  (deployment_status_trace_monotone true true true true true).2.2.2 rfl

/-- Claim C7.  For a present API key and a non-empty required scope set,
the scope guard admits the call exactly when the key holds admin or every
required scope; any other key is rejected as forbidden. -/
theorem scopes_guard_admin_or_all (key : ApiKeyInfo) (required : List ApiKeyScope)
    (h : required ≠ []) :
    canActivate required (some key) = .ok true ↔
      (ApiKeyScope.admin ∈ key.scopes ∨ ∀ s ∈ required, s ∈ key.scopes) := by
  have hne : required.isEmpty = false := by
    cases required with
    | nil => exact absurd rfl h
    | cons a t => rfl
  by_cases hadm : ApiKeyScope.admin ∈ key.scopes
  · simp [canActivate, hne, hadm]
  · by_cases hall : ∀ s ∈ required, s ∈ key.scopes
    · simp [canActivate, hne, hadm, hall, List.all_eq_true]
    · simp [canActivate, hne, hadm, hall, List.all_eq_true]

theorem scopes_guard_admin_or_all_witness :
    ([ApiKeyScope.environmentsWrite] ≠ ([] : List ApiKeyScope))
    ∧ (canActivate [ApiKeyScope.environmentsWrite]
          (some ⟨[ApiKeyScope.admin]⟩) = .ok true ↔
        (ApiKeyScope.admin ∈ (⟨[ApiKeyScope.admin]⟩ : ApiKeyInfo).scopes
          ∨ ∀ s ∈ [ApiKeyScope.environmentsWrite],
              s ∈ (⟨[ApiKeyScope.admin]⟩ : ApiKeyInfo).scopes)) :=
  ⟨by decide, scopes_guard_admin_or_all ⟨[ApiKeyScope.admin]⟩
    [ApiKeyScope.environmentsWrite] (by decide)⟩

/-- Claim C8.  deleteEnvironment on a row already DELETING or DELETED
raises a conflict and leaves the row and the engine untouched; on any other
row the cascade runs and the row ends DELETED when the volume listing
succeeds, or ERROR with the message recorded (and the error re-raised) when
it raises; and driver removal of an absent service leaves the engine state
unchanged, so the per-resource steps tolerate absence. -/
theorem delete_environment_conflict_and_terminal (env : EnvironmentRow)
    (childServiceNames : List (Option String)) (listVolumesRes : Except String (List String))
    (st : DriverState) :
    ((env.status = .deleting ∨ env.status = .deleted) →
      ∃ msg, deleteEnvironment env childServiceNames listVolumesRes st = (.error msg, env, st))
    ∧ (env.status ≠ .deleting → env.status ≠ .deleted →
        (∀ vols, listVolumesRes = .ok vols →
          (deleteEnvironment env childServiceNames listVolumesRes st).1
              = .ok "Environment deleted successfully"
          ∧ (deleteEnvironment env childServiceNames listVolumesRes st).2.1.status = .deleted)
        ∧ (∀ e, listVolumesRes = .error e →
          (deleteEnvironment env childServiceNames listVolumesRes st).1 = .error e
          ∧ (deleteEnvironment env childServiceNames listVolumesRes st).2.1.status = .error
          ∧ (deleteEnvironment env childServiceNames listVolumesRes st).2.1.errorMessage
              = some ("Deletion failed: " ++ e)))
    ∧ (∀ nm, (∀ r ∈ st.services, r.name ≠ nm) → removeService st nm = st) := by
  refine ⟨?_, ?_, ?_⟩
  · rintro (h | h)
    · exact ⟨"Environment is already being deleted", by simp [deleteEnvironment, h]⟩
    · refine ⟨"Environment is already deleted", ?_⟩
      have hne : env.status ≠ .deleting := by rw [h]; intro hc; cases hc
      simp [deleteEnvironment, h, hne]
  · intro h1 h2
    constructor
    · intro vols hv
      subst hv
      simp [deleteEnvironment, h1, h2]
    · intro e he
      subst he
      simp [deleteEnvironment, h1, h2]
  · intro nm hall
    have hf : st.services.filter (fun r => r.name != nm) = st.services := by
      apply List.filter_eq_self.mpr
      intro r hr
      simpa [bne] using hall r hr
    simp [removeService, hf]

theorem delete_environment_witness :
    (deleteEnvironment ⟨"env1", .active, none, "overlay_env_demo_1700000000000"⟩
        [some "job_demo_abcdefghij123456"] (.ok ["vol_demo_data"])
        ⟨[⟨"job_demo_abcdefghij123456", true⟩], [⟨"vol_demo_data", true⟩],
          [⟨"overlay_env_demo_1700000000000", true⟩]⟩).1
      = .ok "Environment deleted successfully"
    ∧ (deleteEnvironment ⟨"env1", .active, none, "overlay_env_demo_1700000000000"⟩
        [some "job_demo_abcdefghij123456"] (.ok ["vol_demo_data"])
        ⟨[⟨"job_demo_abcdefghij123456", true⟩], [⟨"vol_demo_data", true⟩],
          [⟨"overlay_env_demo_1700000000000", true⟩]⟩).2.1.status = .deleted :=
  ((delete_environment_conflict_and_terminal
      ⟨"env1", .active, none, "overlay_env_demo_1700000000000"⟩
      [some "job_demo_abcdefghij123456"] (.ok ["vol_demo_data"])
      ⟨[⟨"job_demo_abcdefghij123456", true⟩], [⟨"vol_demo_data", true⟩],
        [⟨"overlay_env_demo_1700000000000", true⟩]⟩).2.1
    (by decide) (by decide)).1 ["vol_demo_data"] rfl

/-- Claim C9 counterexample.  An engine holding a single service named
legacy that does not carry the managed label: removeService on that name
removes it anyway, so a remove operation does take down an unmanaged
resource of the same name. -/
theorem remove_unmanaged_same_name :
    (removeService ⟨[⟨"legacy", false⟩], [], []⟩ "legacy").services = []
    ∧ (⟨"legacy", false⟩ : DockerResource).managed = false := by
  decide

/-- Claim C9 as amended.  Every resource the process creates is labelled
managed=true (networks, volumes and service specs alike, whenever the
caller's own labels do not override the managed key), but every remove
operation acts purely by name: a resource whose name matches is removed
from the engine whether or not it carries the managed label. -/
theorem managed_create_removal_by_name (labels : List (String × String))
    (config : ServiceConfig) (st : DriverState) (nm : String) (r : DockerResource)
    (hl : labels.all (fun p => p.1 != managedLabelKey) = true)
    (hc : (config.labels.getD []).all (fun p => p.1 != managedLabelKey) = true) :
    lookupKey (createOverlayNetworkLabels labels) managedLabelKey = some "true"
    ∧ lookupKey (createVolumeLabels labels) managedLabelKey = some "true"
    ∧ lookupKey (createServiceSpec config).labels managedLabelKey = some "true"
    ∧ (r ∈ st.services → r.name = nm → r ∉ (removeService st nm).services)
    ∧ (r ∈ st.volumes → r.name = nm → r ∉ (deleteVolume st nm).volumes)
    ∧ (r ∈ st.networks → r.name = nm → r ∉ (deleteNetwork st nm).networks) := by
  refine ⟨?_, ?_, ?_, ?_, ?_, ?_⟩
  · rw [createOverlayNetworkLabels, lookupKey_objectAssign _ _ _ hl]
    rfl
  · rw [createVolumeLabels, lookupKey_objectAssign _ _ _ hl]
    rfl
  · show lookupKey (objectAssign [(managedLabelKey, "true")] (config.labels.getD []))
      managedLabelKey = some "true"
    rw [lookupKey_objectAssign _ _ _ hc]
    rfl
  · intro _ hnm hmem
    have := List.of_mem_filter hmem
    simp [hnm] at this
  · intro _ hnm hmem
    have := List.of_mem_filter hmem
    simp [hnm] at this
  · intro _ hnm hmem
    have := List.of_mem_filter hmem
    simp [hnm] at this

theorem managed_create_removal_by_name_witness :
    lookupKey (createOverlayNetworkLabels [("com.deployment-platform.environment", "env1")])
        managedLabelKey = some "true"
    ∧ (⟨"legacy", false⟩ : DockerResource)
        ∉ (removeService ⟨[⟨"legacy", false⟩], [], []⟩ "legacy").services :=
  ⟨(managed_create_removal_by_name [("com.deployment-platform.environment", "env1")]
      ⟨"svc", "nginx", none, none, none, none, none, none, none, none, none, none⟩
      ⟨[⟨"legacy", false⟩], [], []⟩ "legacy" ⟨"legacy", false⟩
      (by decide) (by decide)).1,
   (managed_create_removal_by_name [("com.deployment-platform.environment", "env1")]
      ⟨"svc", "nginx", none, none, none, none, none, none, none, none, none, none⟩
      ⟨[⟨"legacy", false⟩], [], []⟩ "legacy" ⟨"legacy", false⟩
      (by decide) (by decide)).2.2.2.1 (by decide) rfl⟩

/-- Claim C10.  Service-layer key revocation: a keyId that is missing or
not owned by the caller raises not-found; revoking an already-revoked key
returns successfully with the table unchanged, so the stored revokedAt
timestamp is untouched; and every successful call preserves the number of
rows and their identities, so revocation never deletes a row. -/
theorem revoke_api_key_service_semantics (keys : List ApiKeyRow) (uid kid : String)
    (now : Nat) :
    (keys.find? (fun k => k.userId == uid && k.keyId == kid) = none →
      revokeApiKey keys uid kid now = .error "API key not found")
    ∧ (∀ k, keys.find? (fun k2 => k2.userId == uid && k2.keyId == kid) = some k →
        k.revokedAt.isSome = true → revokeApiKey keys uid kid now = .ok keys)
    ∧ (∀ ks, revokeApiKey keys uid kid now = .ok ks →
        ks.length = keys.length
        ∧ ks.map (fun x => x.id) = keys.map (fun x => x.id)) := by
  refine ⟨?_, ?_, ?_⟩
  · intro h
    simp [revokeApiKey, h]
  · intro k hf hrev
    simp [revokeApiKey, hf, hrev]
  · intro ks hok
    unfold revokeApiKey at hok
    split at hok
    · cases hok
    · rename_i k hfind
      split at hok
      · cases hok
        exact ⟨rfl, rfl⟩
      · cases hok
        constructor
        · exact List.length_map _ _
        · rw [List.map_map]
          apply List.map_congr_left
          intro a _
          by_cases hid : (a.id == k.id) = true <;> simp [Function.comp, hid]

theorem revoke_api_key_witness :
    revokeApiKey [⟨1, "user1", "key1", [ApiKeyScope.logsRead], some 42⟩] "user1" "key1" 99
      = .ok [⟨1, "user1", "key1", [ApiKeyScope.logsRead], some 42⟩] :=
  (revoke_api_key_service_semantics
      [⟨1, "user1", "key1", [ApiKeyScope.logsRead], some 42⟩] "user1" "key1" 99).2.1
    ⟨1, "user1", "key1", [ApiKeyScope.logsRead], some 42⟩ (by decide) (by decide)
